import Mathlib

/-!
Verification development for the fan-out delivery engine
(`activities/models/fan_out.py` of takahe).

The Python module is shallowly embedded: Django model instances become Lean
structures carrying their resolved relations, the mutable database (timeline
events) and the outbound transport (signed requests) become an explicit
`World` that `handle_new` threads through, and Python exceptions become an
`Except` result.  The delivery transport's success or failure is an oracle
`deliver : SignedRequest → Bool` passed as a parameter.
-/

/-- An identity (`users.Identity`, external entity).  `isLocal` models the
`local` boolean flag, `inbox_uri` the remote inbox endpoint, and
`outbound_follows` the ids of the identities this identity follows
(the source reads `identity.outbound_follows.values_list("id", flat=True)`). -/
structure Identity where
  id : Nat
  isLocal : Bool
  inbox_uri : String
  outbound_follows : List Nat
deriving DecidableEq, Repr

/-- A post (`activities.Post`, external entity, read-only here): author,
optional reply target, and the set of mentioned identities. -/
structure Post where
  id : Nat
  author : Identity
  in_reply_to : Option Nat
  mentions : List Identity
deriving DecidableEq, Repr

/-- A post interaction (`activities.PostInteraction`, external entity):
carries the identity performing the interaction. -/
structure PostInteraction where
  id : Nat
  identity : Identity
deriving DecidableEq, Repr

/-- Modelled from the spec: the document builder collaborator
(`Post.to_create_ap` / `to_update_ap` / `to_delete_ap`,
`PostInteraction.to_ap` / `to_undo_ap`; their sources are not under `src/`).
The spec treats them as an abstract converter from a post or interaction to
the activity-protocol create/update/delete/interact/undo document form, so a
document is a tag together with the object it was built from. -/
inductive APDoc where
  | create (post : Post)
  | update (post : Post)
  | delete (post : Post)
  | interact (interaction : PostInteraction)
  | undoInteract (interaction : PostInteraction)
deriving DecidableEq, Repr

def Post.to_create_ap (post : Post) : APDoc := .create post

def Post.to_update_ap (post : Post) : APDoc := .update post

def Post.to_delete_ap (post : Post) : APDoc := .delete post

def PostInteraction.to_ap (interaction : PostInteraction) : APDoc :=
  .interact interaction

def PostInteraction.to_undo_ap (interaction : PostInteraction) : APDoc :=
  .undoInteract interaction

/-- Modelled from the spec: `core.ld.canonicalise` (not under `src/`) puts a
document into canonical form for the wire; the spec delegates the wire format
to a collaborator, so canonicalisation is an abstract injective wrapping. -/
structure Canonical where
  doc : APDoc
deriving DecidableEq, Repr

def canonicalise (doc : APDoc) : Canonical := ⟨doc⟩

/-- Modelled from the spec: a timeline event
(`activities.models.timeline_event.TimelineEvent`, whose source is not under
`src/`) is a per-recipient feed entry referencing a post or an interaction,
with a distinct visibility reason (`type`). -/
structure TimelineEvent where
  identity_id : Nat
  type : String
  subject_post_id : Option Nat
  subject_post_interaction_id : Option Nat
deriving DecidableEq, Repr

/-- Modelled from the spec: timeline insertion is naturally idempotent —
re-insert of an identical event is a no-op (spec §8, Idempotence). -/
def TimelineEvent.insert (tl : List TimelineEvent) (e : TimelineEvent) :
    List TimelineEvent :=
  if e ∈ tl then tl else tl ++ [e]

/-- Modelled from the spec: `TimelineEvent.add_post` records "this
recipient's timeline should show this post". -/
def TimelineEvent.add_post (tl : List TimelineEvent) (identity : Identity)
    (post : Post) : List TimelineEvent :=
  TimelineEvent.insert tl ⟨identity.id, "post", some post.id, none⟩

/-- Modelled from the spec: `TimelineEvent.add_mentioned` records the
distinct "mentioned" visibility reason for the same post. -/
def TimelineEvent.add_mentioned (tl : List TimelineEvent) (identity : Identity)
    (post : Post) : List TimelineEvent :=
  TimelineEvent.insert tl ⟨identity.id, "mentioned", some post.id, none⟩

/-- Modelled from the spec: `TimelineEvent.add_post_interaction` records a
timeline event representing the interaction. -/
def TimelineEvent.add_post_interaction (tl : List TimelineEvent)
    (identity : Identity) (interaction : PostInteraction) :
    List TimelineEvent :=
  TimelineEvent.insert tl ⟨identity.id, "interaction", none, some interaction.id⟩

/-- Modelled from the spec: `TimelineEvent.delete_post_interaction` deletes
the timeline event(s) representing that interaction for this recipient;
deletion of an already-absent event is a no-op (spec §8). -/
def TimelineEvent.delete_post_interaction (tl : List TimelineEvent)
    (identity : Identity) (interaction : PostInteraction) :
    List TimelineEvent :=
  tl.filter (fun e =>
    !(e.identity_id == identity.id &&
      e.subject_post_interaction_id == some interaction.id))

/-- Modelled from the spec:
`TimelineEvent.objects.filter(identity=..., subject_post=post).adelete()`
deletes every timeline event for (recipient, this post). -/
def TimelineEvent.delete_by_identity_and_post (tl : List TimelineEvent)
    (identity : Identity) (post : Post) : List TimelineEvent :=
  tl.filter (fun e =>
    !(e.identity_id == identity.id && e.subject_post_id == some post.id))

/-- One outbound signed request, as issued by `Identity.signed_request`:
the acting identity, HTTP method, target URI and canonicalised body. -/
structure SignedRequest where
  actor_id : Nat
  method : String
  uri : String
  body : Canonical
deriving DecidableEq, Repr

/-- The observable side effects of dispatching: the timeline store and form
the trace of outbound signed requests, in order of issue. -/
structure World where
  timeline : List TimelineEvent
  requests : List SignedRequest
deriving DecidableEq, Repr

/-- The failure surface of `handle_new` (spec §7 taxonomy):
`resolutionFailure` models a dangling subject reference,
`deliveryFailure` a failed outbound transport call, and
`unclassifiedActivity` the `ValueError` raised by the catch-all branch,
carrying the offending kind and locality. -/
inductive FanOutError where
  | resolutionFailure
  | deliveryFailure
  | unclassifiedActivity (type : String) (isLocal : Bool)
deriving DecidableEq, Repr

/-- The two states of `FanOutStates` (`new = State(try_interval=300)`,
`sent = State()`). -/
inductive FanOutState where
  | new
  | sent
deriving DecidableEq, Repr

/-- The transition structure declared by `new.transitions_to(sent)`. -/
def FanOutStates.transitions : List (FanOutState × FanOutState) :=
  [(FanOutState.new, FanOutState.sent)]

/-- The retry interval attached to the `new` state (`try_interval=300`);
`sent` is terminal and has none. -/
def FanOutStates.try_interval : FanOutState → Option Nat
  | .new => some 300
  | .sent => none

/-- The `FanOut` model: recipient identity, activity type (a `CharField`,
so an arbitrary string at the storage layer; the declared choices are
`post`, `post_edited`, `post_deleted`, `interaction`, `undo_interaction`),
and the two nullable subject references (`blank=True, null=True` on both).
`afetch_full` preloading is modelled by the relations being carried inline. -/
structure FanOut where
  id : Nat
  state : FanOutState
  identity : Identity
  type : String
  subject_post : Option Post
  subject_post_interaction : Option PostInteraction
deriving DecidableEq, Repr

/-- The declared `FanOut.Types` choices, in declaration order. -/
def FanOut.Types.choices : List String :=
  ["post", "post_edited", "post_deleted", "interaction", "undo_interaction"]

/-- `Identity.signed_request(method=..., uri=..., body=...)`: issues one
signed outbound request as the acting identity; the `deliver` oracle decides
whether the transport call succeeds, and a failed call raises
(`deliveryFailure`).  The request is recorded in the trace either way, since
it was issued before the failure surfaced. -/
def Identity.signed_request (deliver : SignedRequest → Bool) (actor : Identity)
    (method : String) (uri : String) (body : Canonical) (w : World) :
    World × Except FanOutError Unit :=
  let req : SignedRequest :=
    { actor_id := actor.id, method := method, uri := uri, body := body }
  ({ w with requests := w.requests ++ [req] },
   if deliver req then Except.ok () else Except.error FanOutError.deliveryFailure)

/-- `FanOutStates.handle_new`: sends the fan-out to the right inbox.
Each arm of the Python `match (fan_out.type, fan_out.identity.local)` is
translated in order; `await ....afetch_full()` on a `None` subject raises,
modelled as `resolutionFailure`; the final `case _` raises `ValueError`
carrying the type and locality, modelled as `unclassifiedActivity`.
Returns the updated world together with `cls.sent` or the raised failure. -/
def FanOutStates.handle_new (deliver : SignedRequest → Bool) (fan_out : FanOut)
    (w : World) : World × Except FanOutError FanOutState :=
  match fan_out.type, fan_out.identity.isLocal with
  -- Handle creating/updating local posts
  | "post", true
  | "post_edited", true =>
    match fan_out.subject_post with
    | none => (w, Except.error FanOutError.resolutionFailure)
    | some post =>
      -- If it is a reply, we only add it if we follow at least one
      -- of the people mentioned AND the author
      let mentioned := post.mentions.map Identity.id
      let followed := fan_out.identity.outbound_follows
      let add :=
        if post.in_reply_to.isSome then
          followed.contains post.author.id &&
            mentioned.any (fun m => followed.contains m)
        else
          true
      let tl :=
        if add then TimelineEvent.add_post w.timeline fan_out.identity post
        else w.timeline
      -- We might have been mentioned
      let tl :=
        if mentioned.contains fan_out.identity.id then
          TimelineEvent.add_mentioned tl fan_out.identity post
        else tl
      ({ w with timeline := tl }, Except.ok FanOutState.sent)
  -- Handle sending remote posts create
  | "post", false =>
    match fan_out.subject_post with
    | none => (w, Except.error FanOutError.resolutionFailure)
    | some post =>
      let res := Identity.signed_request deliver post.author "post"
        fan_out.identity.inbox_uri (canonicalise post.to_create_ap) w
      (res.1, res.2.map (fun _ => FanOutState.sent))
  -- Handle sending remote posts update
  | "post_edited", false =>
    match fan_out.subject_post with
    | none => (w, Except.error FanOutError.resolutionFailure)
    | some post =>
      let res := Identity.signed_request deliver post.author "post"
        fan_out.identity.inbox_uri (canonicalise post.to_update_ap) w
      (res.1, res.2.map (fun _ => FanOutState.sent))
  -- Handle deleting local posts
  | "post_deleted", true =>
    match fan_out.subject_post with
    | none => (w, Except.error FanOutError.resolutionFailure)
    | some post =>
      -- Remove all timeline events mentioning it (guarded by a redundant
      -- `if fan_out.identity.local` check in the source)
      let tl :=
        if fan_out.identity.isLocal then
          TimelineEvent.delete_by_identity_and_post w.timeline
            fan_out.identity post
        else w.timeline
      ({ w with timeline := tl }, Except.ok FanOutState.sent)
  -- Handle sending remote post deletes
  | "post_deleted", false =>
    match fan_out.subject_post with
    | none => (w, Except.error FanOutError.resolutionFailure)
    | some post =>
      let res := Identity.signed_request deliver post.author "post"
        fan_out.identity.inbox_uri (canonicalise post.to_delete_ap) w
      (res.1, res.2.map (fun _ => FanOutState.sent))
  -- Handle local boosts/likes
  | "interaction", true =>
    match fan_out.subject_post_interaction with
    | none => (w, Except.error FanOutError.resolutionFailure)
    | some interaction =>
      ({ w with
          timeline :=
            TimelineEvent.add_post_interaction w.timeline fan_out.identity
              interaction },
       Except.ok FanOutState.sent)
  -- Handle sending remote boosts/likes
  | "interaction", false =>
    match fan_out.subject_post_interaction with
    | none => (w, Except.error FanOutError.resolutionFailure)
    | some interaction =>
      let res := Identity.signed_request deliver interaction.identity "post"
        fan_out.identity.inbox_uri (canonicalise interaction.to_ap) w
      (res.1, res.2.map (fun _ => FanOutState.sent))
  -- Handle undoing local boosts/likes
  | "undo_interaction", true =>
    match fan_out.subject_post_interaction with
    | none => (w, Except.error FanOutError.resolutionFailure)
    | some interaction =>
      ({ w with
          timeline :=
            TimelineEvent.delete_post_interaction w.timeline fan_out.identity
              interaction },
       Except.ok FanOutState.sent)
  -- Handle sending remote undoing boosts/likes
  | "undo_interaction", false =>
    match fan_out.subject_post_interaction with
    | none => (w, Except.error FanOutError.resolutionFailure)
    | some interaction =>
      let res := Identity.signed_request deliver interaction.identity "post"
        fan_out.identity.inbox_uri (canonicalise interaction.to_undo_ap) w
      (res.1, res.2.map (fun _ => FanOutState.sent))
  | _, _ =>
    (w, Except.error
      (FanOutError.unclassifiedActivity fan_out.type fan_out.identity.isLocal))

/-- One scheduler step of the stator collaborator on a `new` job (spec §4.2,
retry contract): invoke `handle_new`; on a normal return commit the returned
state; on a raise leave the job's state unchanged.  Side effects performed
before the failure persist either way. -/
def statorStep (deliver : SignedRequest → Bool) (fan_out : FanOut)
    (w : World) : FanOut × World :=
  if fan_out.state = FanOutState.new then
    match FanOutStates.handle_new deliver fan_out w with
    | (w', Except.ok s) => ({ fan_out with state := s }, w')
    | (w', Except.error _) => (fan_out, w')
  else (fan_out, w)

/-! ### Helper lemmas about the timeline store -/

/-- Membership in the timeline after an idempotent insert. -/
@[simp]
theorem TimelineEvent.mem_insert_iff (tl : List TimelineEvent)
    (e e' : TimelineEvent) :
    e ∈ TimelineEvent.insert tl e' ↔ e ∈ tl ∨ e = e' := by
  unfold TimelineEvent.insert
  split
  · constructor
    · exact fun h => Or.inl h
    · rintro (h | rfl)
      · exact h
      · assumption
  · simp [List.mem_append]

/-- Inserting an event that is already present is a no-op. -/
theorem TimelineEvent.insert_eq_of_mem {tl : List TimelineEvent}
    {e : TimelineEvent} (h : e ∈ tl) : TimelineEvent.insert tl e = tl := by
  unfold TimelineEvent.insert
  exact if_pos h

/-- Filtering twice with the same predicate is a no-op the second time. -/
theorem List.filter_self_idem {α : Type} (p : α → Bool) (l : List α) :
    (l.filter p).filter p = l.filter p := by
  induction l with
  | nil => rfl
  | cons a l ih =>
    by_cases h : p a = true <;> simp [List.filter_cons, h, ih]

/-! ### Concrete fixtures used by the witnesses -/

/-- A transport oracle on which every signed request succeeds. -/
def deliverAll : SignedRequest → Bool := fun _ => true

/-- A transport oracle on which every signed request fails. -/
def deliverNone : SignedRequest → Bool := fun _ => false

def authorIdentity : Identity :=
  { id := 2, isLocal := true, inbox_uri := "", outbound_follows := [] }

def mentionedIdentity : Identity :=
  { id := 3, isLocal := false, inbox_uri := "https://m.example/inbox",
    outbound_follows := [] }

/-- A local recipient that follows the author (id 2) and the mentioned
identity (id 3). -/
def followerIdentity : Identity :=
  { id := 1, isLocal := true, inbox_uri := "", outbound_follows := [2, 3] }

/-- A local recipient that is itself mentioned (id 3) but follows nobody. -/
def mentionedRecipient : Identity :=
  { id := 3, isLocal := true, inbox_uri := "", outbound_follows := [] }

def remoteRecipient : Identity :=
  { id := 9, isLocal := false, inbox_uri := "https://remote.example/inbox",
    outbound_follows := [] }

/-- A reply (in_reply_to present) by author 2 mentioning identity 3. -/
def replyPost : Post :=
  { id := 100, author := authorIdentity, in_reply_to := some 50,
    mentions := [mentionedIdentity] }

def sampleInteraction : PostInteraction :=
  { id := 200, identity := authorIdentity }

def emptyWorld : World := { timeline := [], requests := [] }

/-- A job of the given type and recipient locality with both subjects
populated, so that every branch of the dispatch matrix can resolve. -/
def sampleJob (t : String) (l : Bool) : FanOut :=
  { id := 0, state := FanOutState.new,
    identity := if l then followerIdentity else remoteRecipient,
    type := t, subject_post := some replyPost,
    subject_post_interaction := some sampleInteraction }

/-! ### The claims -/

/-- C1.  For a `post`/`post_edited` job with a local recipient, the ordinary
timeline event for (recipient, post) is inserted iff the post is not a reply,
or it is a reply and the recipient follows both the author and at least one
mentioned identity. -/
theorem claim1_reply_filter (d : SignedRequest → Bool) (j : FanOut)
    (w : World) (post : Post)
    (ht : j.type = "post" ∨ j.type = "post_edited")
    (hl : j.identity.isLocal = true)
    (hp : j.subject_post = some post)
    (hnot : (⟨j.identity.id, "post", some post.id, none⟩ : TimelineEvent)
      ∉ w.timeline) :
    (⟨j.identity.id, "post", some post.id, none⟩ : TimelineEvent)
        ∈ (FanOutStates.handle_new d j w).1.timeline ↔
      (post.in_reply_to = none ∨
        (post.in_reply_to ≠ none ∧
         post.author.id ∈ j.identity.outbound_follows ∧
         ∃ m ∈ post.mentions, m.id ∈ j.identity.outbound_follows)) := by
  rcases ht with ht | ht <;>
  · simp only [FanOutStates.handle_new, ht, hl, hp]
    simp only [TimelineEvent.add_post, TimelineEvent.add_mentioned]
    rcases hrep : post.in_reply_to with _ | r <;>
      simp [hrep, TimelineEvent.mem_insert_iff, hnot, List.contains,
        List.elem_iff, List.any_eq_true] <;>
      aesop

/-- C1 witness: the recipient (id 1, follows 2 and 3) receives the reply by
author 2 mentioning identity 3 on its timeline. -/
theorem claim1_witness :
    (⟨1, "post", some 100, none⟩ : TimelineEvent)
      ∈ (FanOutStates.handle_new deliverAll (sampleJob "post" true)
          emptyWorld).1.timeline :=
  (claim1_reply_filter deliverAll (sampleJob "post" true) emptyWorld replyPost
      (Or.inl rfl) rfl rfl (by simp [emptyWorld])).mpr
    (Or.inr ⟨by simp [sampleJob, replyPost],
      by simp [sampleJob, replyPost, authorIdentity, followerIdentity],
      ⟨mentionedIdentity, by simp [sampleJob, replyPost],
        by simp [sampleJob, mentionedIdentity, followerIdentity]⟩⟩)

/-- C2.  For a `post`/`post_edited` job with a local recipient, the
"mentioned" timeline event is created exactly when the recipient is among
the post's mentioned identities, independently of the reply filter; in the
mentioned-but-following-nobody scenario only the mentioned event appears,
and when the reply filter also passes both events appear. -/
theorem claim2_mention_independent (d : SignedRequest → Bool) (j : FanOut)
    (w : World) (post : Post)
    (ht : j.type = "post" ∨ j.type = "post_edited")
    (hl : j.identity.isLocal = true)
    (hp : j.subject_post = some post)
    (hnp : (⟨j.identity.id, "post", some post.id, none⟩ : TimelineEvent)
      ∉ w.timeline)
    (hnm : (⟨j.identity.id, "mentioned", some post.id, none⟩ : TimelineEvent)
      ∉ w.timeline) :
    ((⟨j.identity.id, "mentioned", some post.id, none⟩ : TimelineEvent)
        ∈ (FanOutStates.handle_new d j w).1.timeline ↔
      j.identity.id ∈ post.mentions.map Identity.id) ∧
    (post.in_reply_to ≠ none →
      j.identity.id ∈ post.mentions.map Identity.id →
      post.author.id ∉ j.identity.outbound_follows →
      (∀ m ∈ post.mentions, m.id ∉ j.identity.outbound_follows) →
      ((⟨j.identity.id, "mentioned", some post.id, none⟩ : TimelineEvent)
          ∈ (FanOutStates.handle_new d j w).1.timeline ∧
       (⟨j.identity.id, "post", some post.id, none⟩ : TimelineEvent)
          ∉ (FanOutStates.handle_new d j w).1.timeline)) ∧
    (j.identity.id ∈ post.mentions.map Identity.id →
      post.author.id ∈ j.identity.outbound_follows →
      (∃ m ∈ post.mentions, m.id ∈ j.identity.outbound_follows) →
      ((⟨j.identity.id, "mentioned", some post.id, none⟩ : TimelineEvent)
          ∈ (FanOutStates.handle_new d j w).1.timeline ∧
       (⟨j.identity.id, "post", some post.id, none⟩ : TimelineEvent)
          ∈ (FanOutStates.handle_new d j w).1.timeline)) := by
  rcases ht with ht | ht <;>
  · simp only [FanOutStates.handle_new, ht, hl, hp]
    simp only [TimelineEvent.add_post, TimelineEvent.add_mentioned]
    rcases hrep : post.in_reply_to with _ | r <;>
      simp [hrep, hnp, hnm, List.contains, List.elem_iff,
        List.any_eq_true] <;>
      aesop

/-- The job of the mentioned-but-following-nobody scenario: recipient id 3
is mentioned by the reply but follows neither the author nor anyone. -/
def mentionJob : FanOut :=
  { id := 1, state := FanOutState.new, identity := mentionedRecipient,
    type := "post", subject_post := some replyPost,
    subject_post_interaction := none }

/-- C2 witness: for the mentioned recipient the "mentioned" event is created
while the ordinary reply-filtered event is not. -/
theorem claim2_witness :
    (⟨3, "mentioned", some 100, none⟩ : TimelineEvent)
      ∈ (FanOutStates.handle_new deliverAll mentionJob emptyWorld).1.timeline ∧
    (⟨3, "post", some 100, none⟩ : TimelineEvent)
      ∉ (FanOutStates.handle_new deliverAll mentionJob emptyWorld).1.timeline :=
  (claim2_mention_independent deliverAll mentionJob emptyWorld replyPost
      (Or.inl rfl) rfl rfl (by simp [emptyWorld]) (by simp [emptyWorld])).2.1
    (by decide) (by decide) (by decide) (by decide)

/-- Helper: a job whose type is outside the declared choices falls through
to the catch-all branch, with no side effect. -/
theorem handle_new_eq_unclassified (d : SignedRequest → Bool) (j : FanOut)
    (w : World) (hc : j.type ∉ FanOut.Types.choices) :
    FanOutStates.handle_new d j w =
      (w, Except.error
        (FanOutError.unclassifiedActivity j.type j.identity.isLocal)) := by
  simp only [FanOut.Types.choices, List.mem_cons, List.mem_singleton,
    not_or, List.not_mem_nil] at hc
  unfold FanOutStates.handle_new
  split <;> simp_all

/-- C3 counterexample: all 10 of the 5 × 2 (kind, locality) combinations
dispatch successfully on resolvable jobs — 10 of them are defined in the
dispatch matrix, not 8, and none raises `UnclassifiedActivity`. -/
theorem claim3_counterexample :
    ((FanOut.Types.choices.flatMap (fun t => [(t, true), (t, false)])).filter
        (fun p =>
          match (FanOutStates.handle_new deliverAll (sampleJob p.1 p.2)
              emptyWorld).2 with
          | Except.ok _ => true
          | Except.error _ => false)).length = 10 ∧ (10 : Nat) ≠ 8 :=
  ⟨rfl, by decide⟩

set_option maxRecDepth 2048 in
/-- C3 amended: every one of the 10 combinations of a declared kind with a
recipient locality is defined in the dispatch matrix — dispatching such a
job never raises `UnclassifiedActivity`. -/
theorem claim3_all_defined (d : SignedRequest → Bool) (j : FanOut) (w : World)
    (hc : j.type ∈ FanOut.Types.choices) :
    ∀ (t : String) (b : Bool),
      (FanOutStates.handle_new d j w).2 ≠
        Except.error (FanOutError.unclassifiedActivity t b) := by
  intro t b hcontra
  have ht5 : j.type = "post" ∨ j.type = "post_edited" ∨ j.type = "post_deleted"
      ∨ j.type = "interaction" ∨ j.type = "undo_interaction" := by
    simpa [FanOut.Types.choices] using hc
  cases hl : j.identity.isLocal <;>
    rcases ht5 with ht | ht | ht | ht | ht <;>
    · simp only [FanOutStates.handle_new, ht, hl,
        Identity.signed_request] at hcontra
      repeat' split at hcontra
      all_goals try simp only [Except.map] at hcontra
      all_goals first
        | contradiction
        | simp_all

/-- C3 witness: the `undo_interaction`/local combination, one of the two the
claim says are undefined, dispatches without `UnclassifiedActivity`. -/
theorem claim3_witness :
    (FanOutStates.handle_new deliverAll (sampleJob "undo_interaction" true)
        emptyWorld).2 ≠
      Except.error
        (FanOutError.unclassifiedActivity "undo_interaction" true) :=
  claim3_all_defined deliverAll (sampleJob "undo_interaction" true) emptyWorld
    (by decide) "undo_interaction" true

/-- C4.  A job whose (kind, locality) pair matches no branch — which on this
matrix means exactly that the kind is outside the declared choices — fails
with `UnclassifiedActivity` carrying the offending kind and locality, and
the world is unchanged (no delivery side effect). -/
theorem claim4_unclassified (d : SignedRequest → Bool) (j : FanOut)
    (w : World) (hc : j.type ∉ FanOut.Types.choices) :
    FanOutStates.handle_new d j w =
      (w, Except.error
        (FanOutError.unclassifiedActivity j.type j.identity.isLocal)) :=
  handle_new_eq_unclassified d j w hc

/-- A job with a kind outside the declared choices. -/
def bogusJob : FanOut :=
  { id := 3, state := FanOutState.new, identity := followerIdentity,
    type := "bogus", subject_post := some replyPost,
    subject_post_interaction := some sampleInteraction }

/-- C4 witness: dispatching the `bogus`-kind job raises
`UnclassifiedActivity "bogus" true` and leaves the world untouched. -/
theorem claim4_witness :
    FanOutStates.handle_new deliverAll bogusJob emptyWorld =
      (emptyWorld,
        Except.error (FanOutError.unclassifiedActivity "bogus" true)) :=
  claim4_unclassified deliverAll bogusJob emptyWorld (by decide)

/-- Helper: on a normal return, `handle_new` always returns the `sent`
state (every non-raising branch falls through to `return cls.sent`). -/
theorem handle_new_ok_sent (d : SignedRequest → Bool) (j : FanOut) (w : World)
    (s : FanOutState)
    (h : (FanOutStates.handle_new d j w).2 = Except.ok s) :
    s = FanOutState.sent := by
  unfold FanOutStates.handle_new Identity.signed_request at h
  repeat' split at h
  all_goals try simp only [Except.map] at h
  all_goals try (repeat' split at h)
  all_goals simp_all

/-- C5.  Dispatch returns the `sent` result exactly when it completes
without raising; on a raise the scheduler leaves the job unchanged (still
`new`); the job's state either stays put or takes the single `new → sent`
transition, which is the only transition of the state graph. -/
theorem claim5_single_transition (d : SignedRequest → Bool) (j : FanOut)
    (w : World) :
    (∀ s, (FanOutStates.handle_new d j w).2 = Except.ok s →
      s = FanOutState.sent) ∧
    (∀ e, (FanOutStates.handle_new d j w).2 = Except.error e →
      (statorStep d j w).1 = j) ∧
    ((statorStep d j w).1.state = j.state ∨
      (j.state = FanOutState.new ∧
       (statorStep d j w).1.state = FanOutState.sent)) ∧
    (∀ a b, (a, b) ∈ FanOutStates.transitions →
      a = FanOutState.new ∧ b = FanOutState.sent) := by
  refine ⟨fun s h => handle_new_ok_sent d j w s h, ?_, ?_, ?_⟩
  · intro e h
    rcases hh : FanOutStates.handle_new d j w with ⟨w', r⟩
    rw [hh] at h
    simp only at h
    subst h
    unfold statorStep
    rw [hh]
    split <;> rfl
  · rcases hh : FanOutStates.handle_new d j w with ⟨w', r⟩
    have hsent := handle_new_ok_sent d j w
    rw [hh] at hsent
    unfold statorStep
    rw [hh]
    split
    · rename_i hnew
      cases r with
      | ok s =>
        right
        exact ⟨hnew, by simp [hsent s rfl]⟩
      | error e => left; rfl
    · left; rfl
  · intro a b hab
    simp only [FanOutStates.transitions, List.mem_singleton,
      Prod.mk.injEq] at hab
    exact hab

/-- C5 witness: on the unclassifiable job the dispatcher raises and the
scheduler step leaves the job exactly as it was (still `new`). -/
theorem claim5_witness :
    (statorStep deliverAll bogusJob emptyWorld).1 = bogusJob :=
  (claim5_single_transition deliverAll bogusJob emptyWorld).2.1
    (FanOutError.unclassifiedActivity "bogus" true) rfl

/-- C6.  Dispatching a `post_deleted`/local job deletes exactly the timeline
events whose identity is the recipient and whose subject post is the job's
subject post: an event survives iff it was present and is not such a pair. -/
theorem claim6_delete_exact (d : SignedRequest → Bool) (j : FanOut)
    (w : World) (post : Post)
    (ht : j.type = "post_deleted")
    (hl : j.identity.isLocal = true)
    (hp : j.subject_post = some post) :
    ∀ e : TimelineEvent,
      e ∈ (FanOutStates.handle_new d j w).1.timeline ↔
        (e ∈ w.timeline ∧
          ¬(e.identity_id = j.identity.id ∧
            e.subject_post_id = some post.id)) := by
  intro e
  simp only [FanOutStates.handle_new, ht, hl, hp]
  simp [TimelineEvent.delete_by_identity_and_post, List.mem_filter,
    not_and, Decidable.imp_iff_not_or]

/-- A world already holding three timeline events, two of them for the
recipient (id 1), one of those for post 100. -/
def populatedWorld : World :=
  { timeline :=
      [⟨1, "post", some 100, none⟩,
       ⟨1, "post", some 101, none⟩,
       ⟨2, "post", some 100, none⟩],
    requests := [] }

/-- The `post_deleted`/local job for recipient 1 and post 100. -/
def deleteJob : FanOut :=
  { id := 4, state := FanOutState.new, identity := followerIdentity,
    type := "post_deleted", subject_post := some replyPost,
    subject_post_interaction := none }

/-- C6 witness: the (recipient 1, post 100) event does not survive the
deletion dispatch. -/
theorem claim6_witness :
    (⟨1, "post", some 100, none⟩ : TimelineEvent)
        ∈ (FanOutStates.handle_new deliverAll deleteJob
            populatedWorld).1.timeline ↔
      ((⟨1, "post", some 100, none⟩ : TimelineEvent)
          ∈ populatedWorld.timeline ∧
        ¬((1 : Nat) = 1 ∧ (some 100 : Option Nat) = some 100)) :=
  claim6_delete_exact deliverAll deleteJob populatedWorld replyPost rfl rfl
    rfl ⟨1, "post", some 100, none⟩

/-- C7.  A `post`/remote job issues exactly one signed request, acting as
the post's author, to the recipient's inbox, with the canonicalised
create-document as body; the dispatch succeeds, and the job moves to
`sent`, exactly when that request succeeds. -/
theorem claim7_remote_create (d : SignedRequest → Bool) (j : FanOut)
    (w : World) (post : Post)
    (ht : j.type = "post")
    (hl : j.identity.isLocal = false)
    (hp : j.subject_post = some post)
    (hs : j.state = FanOutState.new) :
    (FanOutStates.handle_new d j w).1.requests =
      w.requests ++ [⟨post.author.id, "post", j.identity.inbox_uri,
        canonicalise post.to_create_ap⟩] ∧
    ((FanOutStates.handle_new d j w).2 = Except.ok FanOutState.sent ↔
      d ⟨post.author.id, "post", j.identity.inbox_uri,
        canonicalise post.to_create_ap⟩ = true) ∧
    ((statorStep d j w).1.state = FanOutState.sent ↔
      d ⟨post.author.id, "post", j.identity.inbox_uri,
        canonicalise post.to_create_ap⟩ = true) := by
  refine ⟨?_, ?_, ?_⟩
  · simp [FanOutStates.handle_new, ht, hl, hp, Identity.signed_request]
  · simp only [FanOutStates.handle_new, ht, hl, hp,
      Identity.signed_request]
    rcases hd : d ⟨post.author.id, "post", j.identity.inbox_uri,
        canonicalise post.to_create_ap⟩ <;>
      simp [hd, Except.map]
  · unfold statorStep
    simp only [hs, if_pos rfl]
    simp only [FanOutStates.handle_new, ht, hl, hp,
      Identity.signed_request]
    rcases hd : d ⟨post.author.id, "post", j.identity.inbox_uri,
        canonicalise post.to_create_ap⟩ <;>
      simp [hd, Except.map, hs]

/-- C7 witness: with an all-succeeding transport the remote create job
appends exactly its one signed request to the trace. -/
theorem claim7_witness :
    (FanOutStates.handle_new deliverAll (sampleJob "post" false)
        emptyWorld).1.requests =
      emptyWorld.requests ++
        [⟨2, "post", "https://remote.example/inbox",
          canonicalise replyPost.to_create_ap⟩] :=
  (claim7_remote_create deliverAll (sampleJob "post" false) emptyWorld
      replyPost rfl rfl rfl rfl).1

/-- Re-inserting the event just inserted is a no-op. -/
@[simp]
theorem TimelineEvent.insert_insert_self (tl : List TimelineEvent)
    (e : TimelineEvent) :
    TimelineEvent.insert (TimelineEvent.insert tl e) e =
      TimelineEvent.insert tl e :=
  TimelineEvent.insert_eq_of_mem (by simp)

/-- Re-inserting an event inserted two steps ago is a no-op. -/
@[simp]
theorem TimelineEvent.insert_insert_over (tl : List TimelineEvent)
    (e e' : TimelineEvent) :
    TimelineEvent.insert
        (TimelineEvent.insert (TimelineEvent.insert tl e) e') e =
      TimelineEvent.insert (TimelineEvent.insert tl e) e' :=
  TimelineEvent.insert_eq_of_mem (by simp)

/-- C8.  After a fully completed attempt, dispatching the same job again
leaves the timeline exactly as the first run left it, and the set of
outbound requests ever issued is unchanged — the retry issues no request
distinguishable from the first run's. -/
theorem claim8_idempotent (d : SignedRequest → Bool) (j : FanOut) (w : World)
    (s : FanOutState)
    (h : (FanOutStates.handle_new d j w).2 = Except.ok s) :
    (FanOutStates.handle_new d j
        (FanOutStates.handle_new d j w).1).1.timeline =
      (FanOutStates.handle_new d j w).1.timeline ∧
    (∀ r : SignedRequest,
      r ∈ (FanOutStates.handle_new d j
          (FanOutStates.handle_new d j w).1).1.requests ↔
        r ∈ (FanOutStates.handle_new d j w).1.requests) := by
  by_cases hc : j.type ∈ FanOut.Types.choices
  · have ht5 : j.type = "post" ∨ j.type = "post_edited" ∨
        j.type = "post_deleted" ∨ j.type = "interaction" ∨
        j.type = "undo_interaction" := by
      simpa [FanOut.Types.choices] using hc
    cases hl : j.identity.isLocal <;>
      rcases ht5 with ht | ht | ht | ht | ht <;>
      [rcases hps : j.subject_post with _ | post;
       rcases hps : j.subject_post with _ | post;
       rcases hps : j.subject_post with _ | post;
       rcases hpi : j.subject_post_interaction with _ | interaction;
       rcases hpi : j.subject_post_interaction with _ | interaction;
       rcases hps : j.subject_post with _ | post;
       rcases hps : j.subject_post with _ | post;
       rcases hps : j.subject_post with _ | post;
       rcases hpi : j.subject_post_interaction with _ | interaction;
       rcases hpi : j.subject_post_interaction with _ | interaction]
    -- close the dangling-subject cases: there the first attempt raised
    all_goals try (first
      | (simp [FanOutStates.handle_new, ht, hl, hps] at h)
      | (simp [FanOutStates.handle_new, ht, hl, hpi] at h))
    -- the five remote branches: the same request is re-issued, so the
    -- request set is unchanged and the timeline is untouched
    · simp [FanOutStates.handle_new, ht, hl, hps, Identity.signed_request,
        List.mem_append]
    · simp [FanOutStates.handle_new, ht, hl, hps, Identity.signed_request,
        List.mem_append]
    · simp [FanOutStates.handle_new, ht, hl, hps, Identity.signed_request,
        List.mem_append]
    · simp [FanOutStates.handle_new, ht, hl, hpi, Identity.signed_request,
        List.mem_append]
    · simp [FanOutStates.handle_new, ht, hl, hpi, Identity.signed_request,
        List.mem_append]
    -- local post create: both inserts are absorbed on the second run
    · constructor
      · simp only [FanOutStates.handle_new, ht, hl, hps,
          TimelineEvent.add_post, TimelineEvent.add_mentioned]
        repeat' split
        all_goals first
          | rfl
          | (exact absurd rfl (by assumption))
          | simp
      · intro r
        simp [FanOutStates.handle_new, ht, hl, hps]
    -- local post edit: identical to create
    · constructor
      · simp only [FanOutStates.handle_new, ht, hl, hps,
          TimelineEvent.add_post, TimelineEvent.add_mentioned]
        repeat' split
        all_goals first
          | rfl
          | (exact absurd rfl (by assumption))
          | simp
      · intro r
        simp [FanOutStates.handle_new, ht, hl, hps]
    -- local post delete: deleting again filters an already-filtered list
    · constructor
      · simp [FanOutStates.handle_new, ht, hl, hps,
          TimelineEvent.delete_by_identity_and_post, List.filter_self_idem]
      · intro r
        simp [FanOutStates.handle_new, ht, hl, hps]
    -- local interaction: the insert is absorbed on the second run
    · constructor
      · simp [FanOutStates.handle_new, ht, hl, hpi,
          TimelineEvent.add_post_interaction]
      · intro r
        simp [FanOutStates.handle_new, ht, hl, hpi]
    -- local undo interaction: the delete filters an already-filtered list
    · constructor
      · simp [FanOutStates.handle_new, ht, hl, hpi,
          TimelineEvent.delete_post_interaction, List.filter_self_idem]
      · intro r
        simp [FanOutStates.handle_new, ht, hl, hpi]
  · rw [handle_new_eq_unclassified d j w hc] at h
    simp at h

/-- C8 witness: double-dispatching the local reply job leaves the timeline
exactly as the single run left it. -/
theorem claim8_witness :
    (FanOutStates.handle_new deliverAll (sampleJob "post" true)
        (FanOutStates.handle_new deliverAll (sampleJob "post" true)
          emptyWorld).1).1.timeline =
      (FanOutStates.handle_new deliverAll (sampleJob "post" true)
        emptyWorld).1.timeline :=
  (claim8_idempotent deliverAll (sampleJob "post" true) emptyWorld
      FanOutState.sent rfl).1

/-- The kind↔subject invariant as the spec states it: exactly one of the two
subject references is populated, and which one is determined by the kind —
`subjectPost` for the three post kinds, `subjectInteraction` for the two
interaction kinds. -/
def FanOut.kindSubjectInvariant (j : FanOut) : Prop :=
  (j.subject_post ≠ none ∧ j.subject_post_interaction = none ∧
    j.type ∈ ["post", "post_edited", "post_deleted"]) ∨
  (j.subject_post = none ∧ j.subject_post_interaction ≠ none ∧
    j.type ∈ ["interaction", "undo_interaction"])

/-- A constructible job whose kind (`post`) does not match its populated
subject reference (an interaction, and no post). -/
def mismatchedJob : FanOut :=
  { id := 5, state := FanOutState.new, identity := followerIdentity,
    type := "post", subject_post := none,
    subject_post_interaction := some sampleInteraction }

/-- C9 counterexample: the model enforces no kind↔subject invariant — a job
of kind `post` carrying only an interaction subject is constructible. -/
theorem claim9_counterexample : ¬ FanOut.kindSubjectInvariant mismatchedJob := by
  simp [FanOut.kindSubjectInvariant, mismatchedJob]

/-- C9 amended: both subject references are nullable and nothing prevents
constructing a job whose kind does not match its populated subject; such a
job is not dispatched, though — resolving the missing subject fails, with
no side effect. -/
theorem claim9_amended (d : SignedRequest → Bool) (j : FanOut) (w : World) :
    (j.type ∈ ["post", "post_edited", "post_deleted"] →
      j.subject_post = none →
      FanOutStates.handle_new d j w =
        (w, Except.error FanOutError.resolutionFailure)) ∧
    (j.type ∈ ["interaction", "undo_interaction"] →
      j.subject_post_interaction = none →
      FanOutStates.handle_new d j w =
        (w, Except.error FanOutError.resolutionFailure)) := by
  constructor
  · intro ht hp
    have ht3 : j.type = "post" ∨ j.type = "post_edited" ∨
        j.type = "post_deleted" := by simpa using ht
    cases hl : j.identity.isLocal <;> rcases ht3 with ht | ht | ht <;>
      simp [FanOutStates.handle_new, ht, hl, hp]
  · intro ht hp
    have ht2 : j.type = "interaction" ∨ j.type = "undo_interaction" := by
      simpa using ht
    cases hl : j.identity.isLocal <;> rcases ht2 with ht | ht <;>
      simp [FanOutStates.handle_new, ht, hl, hp]

/-- C9 witness: dispatching the mismatched job fails on resolution and
leaves the world untouched. -/
theorem claim9_witness :
    FanOutStates.handle_new deliverAll mismatchedJob emptyWorld =
      (emptyWorld, Except.error FanOutError.resolutionFailure) :=
  (claim9_amended deliverAll mismatchedJob emptyWorld).1 (by decide) rfl

/-- A job with an undeclared kind addressed to a remote recipient. -/
def remoteBogusJob : FanOut :=
  { id := 6, state := FanOutState.new, identity := remoteRecipient,
    type := "bogus", subject_post := some replyPost,
    subject_post_interaction := some sampleInteraction }

/-- C10 counterexample: a job whose recipient identity is remote can issue
zero outbound signed requests — a remote job with an undeclared kind raises
instead of delivering — so "every remote job issues exactly one signed
request" is false as stated. -/
theorem claim10_counterexample :
    remoteBogusJob.identity.isLocal = false ∧
    (FanOutStates.handle_new deliverAll remoteBogusJob
        emptyWorld).1.requests = [] :=
  ⟨rfl, rfl⟩

/-- C10 amended.  For every job whose recipient identity is local, dispatch
issues no outbound signed request at all; for a job whose recipient is
remote, provided its kind is one of the five declared choices and the
kind-appropriate subject is populated, dispatch issues exactly one outbound
signed request, always with method `post` and always targeted at the
recipient identity's inbox URI.  (A remote job outside that proviso raises
without issuing any request, as the counterexample shows.) -/
theorem claim10_request_shape (d : SignedRequest → Bool) (j : FanOut)
    (w : World) :
    (j.identity.isLocal = true →
      (FanOutStates.handle_new d j w).1.requests = w.requests) ∧
    (j.type ∈ FanOut.Types.choices →
      (j.type ∈ ["post", "post_edited", "post_deleted"] →
        j.subject_post ≠ none) →
      (j.type ∈ ["interaction", "undo_interaction"] →
        j.subject_post_interaction ≠ none) →
      j.identity.isLocal = false →
      ∃ req : SignedRequest,
        (FanOutStates.handle_new d j w).1.requests = w.requests ++ [req] ∧
        req.method = "post" ∧ req.uri = j.identity.inbox_uri) := by
  constructor
  · intro hl
    by_cases hc : j.type ∈ FanOut.Types.choices
    · have ht5 : j.type = "post" ∨ j.type = "post_edited" ∨
          j.type = "post_deleted" ∨ j.type = "interaction" ∨
          j.type = "undo_interaction" := by
        simpa [FanOut.Types.choices] using hc
      rcases ht5 with ht | ht | ht | ht | ht <;>
        rcases hsp : j.subject_post with _ | post <;>
        rcases hspi : j.subject_post_interaction with _ | interaction <;>
        simp [FanOutStates.handle_new, ht, hl, hsp, hspi]
    · rw [handle_new_eq_unclassified d j w hc]
  · intro hc h1 h2 hl
    have ht5 : j.type = "post" ∨ j.type = "post_edited" ∨
        j.type = "post_deleted" ∨ j.type = "interaction" ∨
        j.type = "undo_interaction" := by
      simpa [FanOut.Types.choices] using hc
    rcases ht5 with ht | ht | ht | ht | ht
    · rcases hsp : j.subject_post with _ | post
      · exact absurd hsp (h1 (by simp [ht]))
      · refine ⟨⟨post.author.id, "post", j.identity.inbox_uri,
            canonicalise post.to_create_ap⟩, ?_, rfl, rfl⟩
        simp [FanOutStates.handle_new, ht, hl, hsp, Identity.signed_request]
    · rcases hsp : j.subject_post with _ | post
      · exact absurd hsp (h1 (by simp [ht]))
      · refine ⟨⟨post.author.id, "post", j.identity.inbox_uri,
            canonicalise post.to_update_ap⟩, ?_, rfl, rfl⟩
        simp [FanOutStates.handle_new, ht, hl, hsp, Identity.signed_request]
    · rcases hsp : j.subject_post with _ | post
      · exact absurd hsp (h1 (by simp [ht]))
      · refine ⟨⟨post.author.id, "post", j.identity.inbox_uri,
            canonicalise post.to_delete_ap⟩, ?_, rfl, rfl⟩
        simp [FanOutStates.handle_new, ht, hl, hsp, Identity.signed_request]
    · rcases hsp : j.subject_post_interaction with _ | interaction
      · exact absurd hsp (h2 (by simp [ht]))
      · refine ⟨⟨interaction.identity.id, "post", j.identity.inbox_uri,
            canonicalise interaction.to_ap⟩, ?_, rfl, rfl⟩
        simp [FanOutStates.handle_new, ht, hl, hsp, Identity.signed_request]
    · rcases hsp : j.subject_post_interaction with _ | interaction
      · exact absurd hsp (h2 (by simp [ht]))
      · refine ⟨⟨interaction.identity.id, "post", j.identity.inbox_uri,
            canonicalise interaction.to_undo_ap⟩, ?_, rfl, rfl⟩
        simp [FanOutStates.handle_new, ht, hl, hsp, Identity.signed_request]

/-- C10 witness: the remote interaction job issues exactly one signed
request, with method `post`, to the remote recipient's inbox. -/
theorem claim10_witness :
    ∃ req : SignedRequest,
      (FanOutStates.handle_new deliverAll (sampleJob "interaction" false)
          emptyWorld).1.requests = emptyWorld.requests ++ [req] ∧
      req.method = "post" ∧ req.uri = "https://remote.example/inbox" :=
  (claim10_request_shape deliverAll (sampleJob "interaction" false)
      emptyWorld).2 (by decide) (by decide) (by decide) rfl
